import Mathlib

/-!
Shallow embedding of the NanoELS-H4 motion core (AxisController.h,
SpindleEncoder.h, MotionController.h) and proofs about its claims.

Modelling conventions:
- C++ `long` / `int` values are embedded as `Int`; the sentinel values
  `LONG_MAX` / `LONG_MIN` used for unset soft stops are embedded as the
  32-bit constants of the ESP32 target (`long` is 32-bit there).
- C++ integer division and modulus truncate toward zero; they are embedded
  with `Int.tdiv`.  Divisions whose divisor can be zero (undefined behaviour
  in C++) are embedded as `Option`-returning functions that yield `none`
  exactly when a zero divisor is reached.
- Real-time quantities (micros(), the inter-pulse interval derived from
  `speed`, driver setup delays) cannot be embedded; the decision whether the
  timing guard of a stepping tick has elapsed is abstracted into a boolean
  oracle input (`fire`), and the time-window part of `isMoving` into a
  boolean (`recent`).  The float-valued `speed` / `fractionalPos` fields
  feed only into that timing and are not part of the embedded state.
- FreeRTOS mutex takes are modelled as always succeeding (the sequential
  interleaving in which every take succeeds).
- Config.h is not part of the sources; the constants it provides
  (`ENCODER_STEPS_INT`, `ENCODER_BACKLASH`, `DUPR_MAX`, `STARTS_MAX`, the
  `MODE_*` tags) are modelled from the spec as parameters in a `Consts`
  record and a `Mode` variant type.
-/

/-- Sentinel for an unset left stop: `LONG_MAX` on the 32-bit ESP32 target. -/
def LONG_MAX_C : Int := 2147483647

/-- Sentinel for an unset right stop: `LONG_MIN` on the 32-bit ESP32 target. -/
def LONG_MIN_C : Int := -2147483648

/-- Modelled from the spec: the constants that the missing Config.h provides
to the motion core (`ENCODER_STEPS_INT` is the spec's PULSES_PER_REV;
`ENCODER_BACKLASH` the encoder backlash window; `DUPR_MAX` / `STARTS_MAX`
the validation bounds of `setPitch` / `setStarts`). -/
structure Consts where
  ENCODER_STEPS_INT : Int
  ENCODER_BACKLASH : Int
  DUPR_MAX : Int
  STARTS_MAX : Int
deriving Repr, DecidableEq

/-- Modelled from the spec: Config.h's `MODE_*` integer tags as a variant
type (mode ∈ \x7bNormal, Async, Cone, Turn, Face, Cut, Thread, Ellipse,
GCode, A1\x7d). -/
inductive Mode where
  | normal | async | cone | turn | face | cutting | thread | ellipse | gcode | a1
deriving Repr, DecidableEq

/-- State of one `AxisController` (AxisController.h).  The integer position
and command fields are embedded exactly; the mechanical parameters
`backlashSteps` / `estopSteps` are carried as the integer values the
constructor derives, and the relevant configuration flags are inlined. -/
structure AxisState where
  pos : Int
  originPos : Int
  posGlobal : Int
  motorPos : Int
  pendingPos : Int
  leftStop : Int
  rightStop : Int
  direction : Bool
  directionInitialized : Bool
  stepperEnableCounter : Int
  disabled : Bool
  continuous : Bool
  backlashSteps : Int
  estopSteps : Int
  needsRest : Bool
  active : Bool
deriving Repr, DecidableEq

namespace AxisState

/-- Constructor state of `AxisController` (AxisController.h:95-145): all
positions zero, stops unset, driver enable counter zero. -/
def init (active needsRest : Bool) (backlashSteps estopSteps : Int) : AxisState where
  pos := 0
  originPos := 0
  posGlobal := 0
  motorPos := 0
  pendingPos := 0
  leftStop := LONG_MAX_C
  rightStop := LONG_MIN_C
  direction := true
  directionInitialized := false
  stepperEnableCounter := 0
  disabled := false
  continuous := false
  backlashSteps := backlashSteps
  estopSteps := estopSteps
  needsRest := needsRest
  active := active

/-- Source `AxisController::moveTo` (AxisController.h:183-217).  Returns the new
state and the C++ return value.  Note the source order: `continuous` is
assigned first, and in the `newPos != pos` branch `pendingPos` is assigned
before the estop travel check runs. -/
def moveTo (a : AxisState) (newPos : Int) (continuousMode : Bool) :
    AxisState × Bool :=
  let a := { a with continuous := continuousMode }
  if newPos = a.pos then
    ({ a with pendingPos := 0 }, true)
  else
    let a := { a with
      pendingPos := newPos - a.motorPos -
        (if newPos > a.pos then 0 else a.backlashSteps) }
    let travel : Int := |newPos - a.pos|
    if travel > a.estopSteps then (a, false) else (a, true)

/-- Source `AxisController::update` (AxisController.h:225-303), one tick.  The
micros()-based inter-pulse timing guard is abstracted into the boolean
`fire`; the speed ramp bookkeeping drives only that timing and is omitted.
When a step fires, the position bookkeeping of lines 246-269 is embedded
exactly. -/
def update (a : AxisState) (fire : Bool) : AxisState :=
  if a.pendingPos = 0 then a
  else if !fire then a
  else
    let dir : Bool := a.pendingPos > 0
    let delta : Int := if dir then 1 else -1
    let pos' :=
      if dir then (if a.motorPos ≥ a.pos then a.pos + 1 else a.pos)
      else (if a.motorPos ≤ a.pos - a.backlashSteps then a.pos - 1 else a.pos)
    { a with
      pendingPos := a.pendingPos - delta
      pos := pos'
      motorPos := a.motorPos + delta
      posGlobal := a.posGlobal + delta
      direction := dir
      directionInitialized := true }

/-- Source `AxisController::setEnabled` (AxisController.h:311-335): reference
counted driver enable, a no-op unless `needsRest && active`. -/
def setEnabled (a : AxisState) (enable : Bool) : AxisState :=
  if !a.needsRest || !a.active then a
  else if enable then
    { a with stepperEnableCounter := a.stepperEnableCounter + 1 }
  else if a.stepperEnableCounter > 0 then
    { a with stepperEnableCounter := a.stepperEnableCounter - 1 }
  else a

/-- Source `AxisController::setLeftStop` (AxisController.h:341-351). -/
def setLeftStop (a : AxisState) (stopPos : Int) : AxisState :=
  { a with leftStop := stopPos }

/-- Source `AxisController::setRightStop` (AxisController.h:357-367). -/
def setRightStop (a : AxisState) (stopPos : Int) : AxisState :=
  { a with rightStop := stopPos }

/-- Source `AxisController::setOrigin` (AxisController.h:375-400): shift the stops
by `pos`, fold `pos` into `motorPos` and `originPos`, zero `pos` and
`pendingPos`. -/
def setOrigin (a : AxisState) : AxisState :=
  let ls := if a.leftStop ≠ LONG_MAX_C then a.leftStop - a.pos else a.leftStop
  let rs := if a.rightStop ≠ LONG_MIN_C then a.rightStop - a.pos else a.rightStop
  { a with
    leftStop := ls
    rightStop := rs
    motorPos := a.motorPos - a.pos
    originPos := a.originPos + a.pos
    pos := 0
    pendingPos := 0 }

/-- Source `AxisController::isMoving` (AxisController.h:432-434); the 50 ms
recent-step time window is abstracted into the boolean `recent`. -/
def isMoving (a : AxisState) (recent : Bool) : Bool :=
  a.pendingPos ≠ 0 || recent

/-- Source `AxisController::updateEnablePin` (AxisController.h:504-510): the level
written to the driver enable line. -/
def enablePinHigh (a : AxisState) : Bool :=
  !a.disabled && (!a.needsRest || a.stepperEnableCounter > 0)

end AxisState

/-- State of the `SpindleEncoder` (SpindleEncoder.h).  The RPM estimate and
the pulse-time bookkeeping are real-time quantities and are not embedded;
the position fields and `syncOffset` are embedded exactly. -/
structure EncoderState where
  position : Int
  positionAvg : Int
  positionGlobal : Int
  syncOffset : Int
deriving Repr, DecidableEq

namespace EncoderState

/-- Constructor state of `SpindleEncoder` (SpindleEncoder.h:39-41). -/
def init : EncoderState where
  position := 0
  positionAvg := 0
  positionGlobal := 0
  syncOffset := 0

/-- Source `SpindleEncoder::processPulses` (SpindleEncoder.h:201-241), position
part: advance `position` and `positionGlobal` (single-step revolution
normalization of lines 220-224) and apply the encoder-backlash compensation
of lines 228-232.  `B` is Config.h's `ENCODER_BACKLASH`, `ppr` its
`ENCODER_STEPS_INT`. -/
def processPulses (e : EncoderState) (B ppr delta : Int) : EncoderState :=
  let p := e.position + delta
  let pg := e.positionGlobal + delta
  let pg := if pg > ppr then pg - ppr else if pg < 0 then pg + ppr else pg
  let avg :=
    if p > e.positionAvg then p
    else if p < e.positionAvg - B then p + B
    else e.positionAvg
  { e with position := p, positionAvg := avg, positionGlobal := pg }

/-- Source `SpindleEncoder::update` (SpindleEncoder.h:85-106): the hardware counter
read is abstracted into the signed pulse `delta`; a zero delta returns
early, otherwise the pulses are processed. -/
def updateEnc (e : EncoderState) (B ppr delta : Int) : EncoderState :=
  if delta = 0 then e else e.processPulses B ppr delta

/-- Source `SpindleEncoder::resetPosition` (SpindleEncoder.h:145-150). -/
def resetPosition (e : EncoderState) : EncoderState :=
  { e with position := 0, positionAvg := 0, syncOffset := 0 }

end EncoderState

/-- State of the `MotionController` (MotionController.h): the three axes,
the encoder, and the coordinator fields.  The float `coneRatio` feeds only
the stubbed cone mode and is not embedded. -/
structure MotionState where
  zAxis : AxisState
  xAxis : AxisState
  a1Axis : AxisState
  encoder : EncoderState
  currentMode : Mode
  systemEnabled : Bool
  currentPitch : Int
  currentStarts : Int
  operationIndex : Int
  operationSubIndex : Int
  operationAdvanceFlag : Bool
  operationStartPitch : Int
  operationPitchSign : Int
  turnPasses : Int
  auxDirectionForward : Bool
deriving Repr, DecidableEq

/-- Per-tick oracle inputs of the motion tick: the signed encoder pulse
delta read from the hardware counter, the elapsed-timing guards of the
three axis stepping ticks, and the recent-step windows of the `isMoving`
queries made by the mode dispatch. -/
structure TickInput where
  encDelta : Int
  zFire : Bool
  xFire : Bool
  a1Fire : Bool
  zRecent : Bool
  xRecent : Bool
deriving Repr, DecidableEq

namespace MotionState

/-- Constructor state of `MotionController` (MotionController.h:57-71); the
C++ member initializer sets `currentMode(0)`, the Config.h tag of Normal
mode. -/
def init (z x a1 : AxisState) : MotionState where
  zAxis := z
  xAxis := x
  a1Axis := a1
  encoder := EncoderState.init
  currentMode := Mode.normal
  systemEnabled := false
  currentPitch := 0
  currentStarts := 1
  operationIndex := 0
  operationSubIndex := 0
  operationAdvanceFlag := false
  operationStartPitch := 0
  operationPitchSign := 1
  turnPasses := 3
  auxDirectionForward := true

/-- Source `MotionController::calculateAxisPosition` (MotionController.h:434-449).
The C++ expression is
`spindlePos * axis.getPositionSteps() / axis.getPositionSteps() /
ENCODER_STEPS_INT * currentPitch * currentStarts`, evaluated left to right
with truncating division; when `axis.pos = 0` the first division is a C++
division by zero, embedded as `none`. -/
def calculateAxisPosition (c : Consts) (m : MotionState) (axis : AxisState)
    (spindlePos : Int) (respectStops : Bool) : Option Int :=
  if axis.pos = 0 then none
  else
    let newPos := (((spindlePos * axis.pos).tdiv axis.pos).tdiv
      c.ENCODER_STEPS_INT) * m.currentPitch * m.currentStarts
    let newPos :=
      if respectStops then
        if newPos < axis.rightStop then axis.rightStop
        else if newPos > axis.leftStop then axis.leftStop
        else newPos
      else newPos
    some newPos

/-- Source `MotionController::calculateSpindlePosition` (MotionController.h:457-460):
`axisPos * axis.getPositionSteps() / axis.getPositionSteps() *
ENCODER_STEPS_INT / (currentPitch * currentStarts)`; `none` models a zero
divisor (axis at 0, or `pitch * starts = 0`). -/
def calculateSpindlePosition (c : Consts) (m : MotionState) (axis : AxisState)
    (axisPos : Int) : Option Int :=
  if axis.pos = 0 then none
  else if m.currentPitch * m.currentStarts = 0 then none
  else
    some ((((axisPos * axis.pos).tdiv axis.pos) * c.ENCODER_STEPS_INT).tdiv
      (m.currentPitch * m.currentStarts))

/-- Source `MotionController::setNewOrigin` (MotionController.h:416-425). -/
def setNewOrigin (m : MotionState) : MotionState :=
  { m with
    zAxis := m.zAxis.setOrigin
    xAxis := m.xAxis.setOrigin
    a1Axis := if m.a1Axis.active then m.a1Axis.setOrigin else m.a1Axis
    encoder := m.encoder.resetPosition }

/-- Source `MotionController::setEnabled` (MotionController.h:135-167).  Disabling
only clears `systemEnabled` and `operationIndex`; enabling takes an enable
reference on each axis, resets the synchronization origin and initializes
the operation variables. -/
def setEnabled (m : MotionState) (enable : Bool) : MotionState :=
  if m.systemEnabled && enable then m
  else if !enable then
    { m with systemEnabled := false, operationIndex := 0 }
  else
    let m := { m with
      zAxis := m.zAxis.setEnabled true
      xAxis := m.xAxis.setEnabled true
      a1Axis := if m.a1Axis.active then m.a1Axis.setEnabled true else m.a1Axis }
    let m := m.setNewOrigin
    { m with
      systemEnabled := true
      operationPitchSign := if m.currentPitch ≥ 0 then 1 else -1
      operationStartPitch := m.currentPitch
      operationIndex := 0
      operationAdvanceFlag := false
      operationSubIndex := 0 }

/-- Source `MotionController::setOperationMode` (MotionController.h:175-189). -/
def setOperationMode (m : MotionState) (mode : Mode) : MotionState :=
  if m.currentMode = mode then m
  else
    let m := if m.systemEnabled then m.setEnabled false else m
    { m with currentMode := mode, operationIndex := 0 }

/-- Source `MotionController::setPitch` (MotionController.h:198-212): validate
against `±DUPR_MAX`, assign, then `setNewOrigin`. -/
def setPitch (c : Consts) (m : MotionState) (pitch : Int) : MotionState :=
  if pitch < -c.DUPR_MAX ∨ pitch > c.DUPR_MAX then m
  else ({ m with currentPitch := pitch }).setNewOrigin

/-- Source `MotionController::setStarts` (MotionController.h:218-232): validate
against `[1, STARTS_MAX]`, assign, then `setNewOrigin`. -/
def setStarts (c : Consts) (m : MotionState) (starts : Int) : MotionState :=
  if starts < 1 ∨ starts > c.STARTS_MAX then m
  else ({ m with currentStarts := starts }).setNewOrigin

/-- Source `MotionController::updateNormalMode` (MotionController.h:293-306): when
axis Z is not moving, compute the target from the encoder average position
with stops respected and issue a continuous `moveTo` if it differs from the
current position.  A `none` target is the division by zero of
`calculateAxisPosition` (C++ undefined behaviour; the state is left
unchanged here so that reaching it stays observable through
`calculateAxisPosition` itself). -/
def updateNormalMode (c : Consts) (m : MotionState) (zRecent : Bool) :
    MotionState :=
  if m.zAxis.isMoving zRecent then m
  else
    match m.calculateAxisPosition c m.zAxis m.encoder.positionAvg true with
    | none => m
    | some targetPos =>
      if targetPos ≠ m.zAxis.pos then
        { m with zAxis := (m.zAxis.moveTo targetPos true).1 }
      else m

/-- Source `MotionController::updateTurnMode` (MotionController.h:359-376): the
readiness check; when it fails the system is disabled via
`setIsOnFromLoop(false)`.  The pass state machine itself is a TODO stub in
the source. -/
def updateTurnMode (m : MotionState) (zRecent xRecent : Bool) : MotionState :=
  if m.zAxis.isMoving zRecent = true ∨ m.xAxis.isMoving xRecent = true ∨
      m.turnPasses ≤ 0 ∨
      m.zAxis.leftStop = LONG_MAX_C ∨ m.zAxis.rightStop = LONG_MIN_C ∨
      m.xAxis.leftStop = LONG_MAX_C ∨ m.xAxis.rightStop = LONG_MIN_C ∨
      m.currentPitch = 0 ∨ m.currentPitch * m.operationPitchSign < 0 ∨
      m.currentStarts < 1 then
    m.setEnabled false
  else m

/-- Mode dispatch of `MotionController::update` (MotionController.h:102-116).
Async, Cone, Face, Cut, Thread, Ellipse, GCode and A1 are logging-only
stubs in the source (Cone additionally only touches the speed caps, which
live in the abstracted timing layer). -/
def dispatchMode (c : Consts) (m : MotionState) (inp : TickInput) : MotionState :=
  match m.currentMode with
  | Mode.normal => m.updateNormalMode c inp.zRecent
  | Mode.turn => m.updateTurnMode inp.zRecent inp.xRecent
  | _ => m

/-- Source `MotionController::update` (MotionController.h:88-127), one motion tick:
tick the encoder, dispatch the mode unless the system is disabled, the
pitch is zero or a sync offset is pending, then tick each axis (A1 only when
active). -/
def update (c : Consts) (m : MotionState) (inp : TickInput) : MotionState :=
  let m := { m with
    encoder := m.encoder.updateEnc c.ENCODER_BACKLASH c.ENCODER_STEPS_INT inp.encDelta }
  let m :=
    if !m.systemEnabled || m.currentPitch = 0 || m.encoder.syncOffset ≠ 0 then m
    else m.dispatchMode c inp
  { m with
    zAxis := m.zAxis.update inp.zFire
    xAxis := m.xAxis.update inp.xFire
    a1Axis := if m.a1Axis.active then m.a1Axis.update inp.a1Fire else m.a1Axis }

end MotionState

/-! Concrete sample states used by witnesses and counterexamples. -/

/-- Sample Z axis at `pos = 100`, `motorPos = 100`, `backlashSteps = 50`,
as in the spec's backlash take-up scenario. -/
def zAxis100 : AxisState :=
  { AxisState.init true true 50 10000 with
    pos := 100, motorPos := 100, posGlobal := 100 }

/-- Sample axis at rest with no backlash, `estopSteps = 10000`, as in the
spec's estop-rejection scenario. -/
def restAxis : AxisState := AxisState.init true true 0 10000

/-- Axis-level command alphabet: a `moveTo` call or one stepping tick (with
its timing-oracle bit). -/
inductive AxisCmd where
  | move (target : Int) (cont : Bool)
  | tick (fire : Bool)
deriving Repr, DecidableEq

/-- Apply one axis command. -/
def applyAxisCmd (a : AxisState) : AxisCmd → AxisState
  | AxisCmd.move t cont => (a.moveTo t cont).1
  | AxisCmd.tick fire => a.update fire

/-- Run a sequence of axis commands. -/
def runAxis (a : AxisState) (cs : List AxisCmd) : AxisState :=
  cs.foldl applyAxisCmd a

/-- P1 of the spec: the motor-frame position differs from the tool-frame
position by at most the mechanical backlash. -/
def backlashInv (a : AxisState) : Prop :=
  |a.motorPos - a.pos| ≤ a.backlashSteps

instance (a : AxisState) : Decidable (backlashInv a) := by
  unfold backlashInv; infer_instance

/-- Axis with both stops set, 50 steps of backlash and `estopSteps = 100`,
used to refute the motor-travel part of P2. -/
def c5axisA : AxisState :=
  { AxisState.init true true 50 100 with leftStop := 200, rightStop := -200 }

/-- Sample Config.h constant values for concrete runs. -/
def sampleConsts : Consts :=
  { ENCODER_STEPS_INT := 2400, ENCODER_BACKLASH := 5,
    DUPR_MAX := 100000, STARTS_MAX := 10 }

/-- Inactive A1 axis sample. -/
def a1Off : AxisState := AxisState.init false false 0 0

/-- Axis at `pos = 1` with stops `[−5, 5]`, used to exercise the
coordinator clamp. -/
def c5axisB : AxisState :=
  { AxisState.init true true 0 10000 with
    pos := 1, motorPos := 1, leftStop := 5, rightStop := -5 }

/-- Coordinator sample with `pitch = 1`, `starts = 1`. -/
def c5motion : MotionState :=
  { MotionState.init restAxis restAxis a1Off with currentPitch := 1 }

/-- Specification formula for the Normal-mode Z target, following the
spec's words (§4.3.1): `encoder.average_position() · pitch_du · starts ·
steps_per_du / PULSES_PER_REV` with `steps_per_du = motor_steps_per_rev /
screw_pitch_du`, then the soft-limit clamp.  Declared only to be compared
with the source's `calculateAxisPosition`. -/
def specNormalTargetSteps (spindleAvg pitch starts motorSteps screwPitch ppr
    leftStop rightStop : Int) : Int :=
  let t := ((spindleAvg * pitch * starts * motorSteps).tdiv screwPitch).tdiv ppr
  if t < rightStop then rightStop else if t > leftStop then leftStop else t

/-- Z axis at `pos = 100` (lead 800 steps/rev over 40 du/rev), away from
zero so the source's division is defined. -/
def c1zAxis : AxisState :=
  { AxisState.init true true 50 100000 with pos := 100, motorPos := 100 }

/-- Coordinator in Normal mode with `pitch = 10`, `starts = 1` and the
encoder average position at one full revolution (2400 pulses). -/
def c1motion : MotionState :=
  { MotionState.init c1zAxis restAxis a1Off with
    currentPitch := 10, currentStarts := 1,
    encoder := { EncoderState.init with position := 2400, positionAvg := 2400 } }

/-- Coordinator freshly constructed with active Z and X axes. -/
def c3motion0 : MotionState :=
  MotionState.init (AxisState.init true true 50 100000)
    (AxisState.init true true 50 100000) a1Off

/-- Public-interface trace `set_pitch(100); set_enabled(true)` from the
initial state: `setEnabled` runs `setNewOrigin`, which zeroes every axis
position. -/
def c3motion1 : MotionState :=
  (c3motion0.setPitch sampleConsts 100).setEnabled true

/-- Fold `processPulses` over a sequence of hardware pulse deltas. -/
def encRun (B ppr : Int) (e : EncoderState) (ds : List Int) : EncoderState :=
  ds.foldl (fun e d => e.processPulses B ppr d) e

/-- Encoder state after the first `i` deltas, starting from the
constructed encoder. -/
def encAt (B ppr : Int) (ds : List Int) (i : Nat) : EncoderState :=
  encRun B ppr EncoderState.init (ds.take i)

/-- P7 of the spec: `position_avg` never lags the raw position and never
exceeds it by more than the encoder backlash window. -/
def encInv (B : Int) (e : EncoderState) : Prop :=
  e.position ≤ e.positionAvg ∧ e.positionAvg ≤ e.position + B

instance (B : Int) (e : EncoderState) : Decidable (encInv B e) := by
  unfold encInv; infer_instance

/-- Sign consistency of one transition: the compensated position is
unchanged, or moves strictly in the same direction as the raw position. -/
def encSignRel (e e' : EncoderState) : Prop :=
  e'.positionAvg = e.positionAvg ∨
  (e.positionAvg < e'.positionAvg ∧ e.position < e'.position) ∨
  (e'.positionAvg < e.positionAvg ∧ e'.position < e.position)

/-- State at the tick boundary following a `set_enabled(false)` command. -/
def afterDisableTick (c : Consts) (m : MotionState) (inp : TickInput) :
    MotionState :=
  (m.setEnabled false).update c inp

/-- Coordinator whose Z axis has 5 pending steps from an accepted manual
`moveTo(5)` (issued through the axis passthrough before disabling). -/
def c6motionA : MotionState :=
  { MotionState.init restAxis restAxis a1Off with
    zAxis := (restAxis.moveTo 5 false).1 }

/-- Baseline tick input: no encoder pulses, all axis timing guards
elapsed. -/
def c6tick : TickInput :=
  { encDelta := 0, zFire := true, xFire := true, a1Fire := true,
    zRecent := false, xRecent := false }

/-- Postcondition of the synchronization reset `set_new_origin` relative to
the pre-command state `m`: per active axis the origin offset absorbs `pos`,
`pos` and `pending` become 0, set stops shift by `pos`; the encoder's
`position`, `positionAvg` and `syncOffset` are zeroed. -/
def syncResetPost (m m' : MotionState) : Prop :=
  m'.zAxis.pos = 0 ∧ m'.zAxis.pendingPos = 0 ∧
  m'.zAxis.originPos = m.zAxis.originPos + m.zAxis.pos ∧
  (m.zAxis.leftStop ≠ LONG_MAX_C →
    m'.zAxis.leftStop = m.zAxis.leftStop - m.zAxis.pos) ∧
  (m.zAxis.rightStop ≠ LONG_MIN_C →
    m'.zAxis.rightStop = m.zAxis.rightStop - m.zAxis.pos) ∧
  m'.xAxis.pos = 0 ∧ m'.xAxis.pendingPos = 0 ∧
  m'.xAxis.originPos = m.xAxis.originPos + m.xAxis.pos ∧
  (m.a1Axis.active = true → m'.a1Axis.pos = 0 ∧ m'.a1Axis.pendingPos = 0 ∧
    m'.a1Axis.originPos = m.a1Axis.originPos + m.a1Axis.pos) ∧
  m'.encoder.position = 0 ∧ m'.encoder.positionAvg = 0 ∧
  m'.encoder.syncOffset = 0

/-- One coordinator enable/disable cycle. -/
def enCycle (m : MotionState) : MotionState :=
  (m.setEnabled true).setEnabled false

/-! Claim C7: the pending-step computation of an accepted `moveTo`. -/

/-- C7: an accepted `moveTo(target)` with `target == pos` sets `pending` to
0; otherwise it sets `pending = target − motor_pos − (0 if target > pos,
else backlash_steps)`. -/
theorem c7_moveTo_pending (a : AxisState) (t : Int) (cont : Bool) :
    (t = a.pos →
      (a.moveTo t cont).1.pendingPos = 0 ∧ (a.moveTo t cont).2 = true) ∧
    ((a.moveTo t cont).2 = true → t ≠ a.pos →
      (a.moveTo t cont).1.pendingPos =
        t - a.motorPos - (if t > a.pos then 0 else a.backlashSteps)) := by
  constructor
  · intro h
    simp [AxisState.moveTo, h]
  · intro _ hne
    simp only [AxisState.moveTo, if_neg hne]
    split <;> rfl

/-- C7 witness: the claim's concrete instance — from `pos = 100`,
`motor_pos = 100`, `backlash_steps = 50`, `moveTo(80)` is accepted and
yields `pending = −70`. -/
theorem c7_moveTo_pending_witness :
    (zAxis100.moveTo 80 false).2 = true ∧
    (zAxis100.moveTo 80 false).1.pendingPos = -70 := by
  refine ⟨by decide, ?_⟩
  have h := (c7_moveTo_pending zAxis100 80 false).2 (by decide) (by decide)
  rw [h]; decide

/-! Claim C2: estop rejection is not atomic in the source — `moveTo` assigns
`continuous` and `pendingPos` before the travel check, so a rejected
command leaves the axis driving toward the rejected target. -/

/-- C2: at the spec's estop scenario (`estop_steps = 10000`, `pos = 0`,
`moveTo(15000)`), the source returns failure but has already set
`pending := 15000` and `continuous := true`; the next stepping tick then
emits a pulse toward the rejected target (`motorPos` becomes 1). -/
theorem c2_reject_mutates_state :
    restAxis.estopSteps = 10000 ∧ restAxis.pos = 0 ∧
    restAxis.pendingPos = 0 ∧ restAxis.continuous = false ∧
    (restAxis.moveTo 15000 true).2 = false ∧
    (restAxis.moveTo 15000 true).1.pendingPos = 15000 ∧
    (restAxis.moveTo 15000 true).1.continuous = true ∧
    ((restAxis.moveTo 15000 true).1.update true).motorPos = 1 := by
  decide

/-! Claim C4: the backlash bound `|motor_pos − pos| ≤ backlash_steps` is
preserved by every `moveTo` command and every stepping tick. -/

namespace AxisState

/-- A `moveTo` call leaves `motorPos` unchanged in every branch. -/
theorem moveTo_motorPos (a : AxisState) (t : Int) (c : Bool) :
    (a.moveTo t c).1.motorPos = a.motorPos := by
  simp only [AxisState.moveTo]
  split
  · rfl
  · split <;> rfl

/-- A `moveTo` call leaves `pos` unchanged in every branch. -/
theorem moveTo_pos (a : AxisState) (t : Int) (c : Bool) :
    (a.moveTo t c).1.pos = a.pos := by
  simp only [AxisState.moveTo]
  split
  · rfl
  · split <;> rfl

/-- A `moveTo` call leaves `backlashSteps` unchanged in every branch. -/
theorem moveTo_backlashSteps (a : AxisState) (t : Int) (c : Bool) :
    (a.moveTo t c).1.backlashSteps = a.backlashSteps := by
  simp only [AxisState.moveTo]
  split
  · rfl
  · split <;> rfl

end AxisState

/-- A `moveTo` call touches only `continuous` and `pendingPos`, so it
preserves the backlash bound. -/
theorem backlashInv_moveTo (a : AxisState) (t : Int) (cont : Bool)
    (h : backlashInv a) : backlashInv ((a.moveTo t cont).1) := by
  unfold backlashInv at *
  rw [AxisState.moveTo_motorPos, AxisState.moveTo_pos,
    AxisState.moveTo_backlashSteps]
  exact h

/-- One stepping tick preserves the backlash bound: a forward step advances
`pos` with the motor exactly when the motor has caught up, a reverse step
only once the motor is a full backlash behind. -/
theorem backlashInv_update (a : AxisState) (fire : Bool)
    (h : backlashInv a) : backlashInv (a.update fire) := by
  unfold backlashInv at *
  rw [abs_le] at h ⊢
  simp only [AxisState.update]
  split
  · exact h
  · split
    · exact h
    · dsimp only
      split_ifs with h1 h2 h3 <;>
        simp only [decide_eq_true_eq, Bool.not_eq_true',
          decide_eq_false_iff_not] at * <;>
        omega

/-- C4: from any state satisfying the backlash bound, every sequence of
`moveTo` commands and stepping ticks preserves it, hence it holds at every
tick boundary. -/
theorem c4_backlash_invariant (a : AxisState) (cs : List AxisCmd)
    (h : backlashInv a) : backlashInv (runAxis a cs) := by
  induction cs generalizing a with
  | nil => exact h
  | cons c cs ih =>
    cases c with
    | move t cont => exact ih _ (backlashInv_moveTo a t cont h)
    | tick fire => exact ih _ (backlashInv_update a fire h)

/-- C4 witness: the spec's backlash take-up scenario — `moveTo(80)` from
`pos = motor_pos = 100` with 50 steps of backlash, followed by stepping
ticks and a second command — keeps the invariant. -/
theorem c4_backlash_invariant_witness :
    backlashInv zAxis100 ∧
    backlashInv (runAxis zAxis100
      [AxisCmd.move 80 false, AxisCmd.tick true, AxisCmd.tick true,
       AxisCmd.tick false, AxisCmd.move 120 true, AxisCmd.tick true]) :=
  ⟨by decide, c4_backlash_invariant zAxis100 _ (by decide)⟩

/-! Claim C5: soft-stop and estop enforcement.  The axis accepts targets
whose motor travel including backlash take-up exceeds `estopSteps` (the
check bounds only `|target − pos|`), so the claim as stated fails; the
clamp into `[right_stop, left_stop]` lives in the coordinator's
`calculateAxisPosition`. -/

/-- C5 counterexample: with both stops set, `backlash_steps = 50` and
`estop_steps = 100`, the command `moveTo(−100)` is accepted although the
motor travel it requires — `pending = −150`, i.e. 150 steps from the
pre-command position once the backlash take-up is added — exceeds
`estop_steps`.  The estop check bounds only `|target − pos| = 100`. -/
theorem c5_counterexample :
    c5axisA.leftStop ≠ LONG_MAX_C ∧ c5axisA.rightStop ≠ LONG_MIN_C ∧
    c5axisA.pos = 0 ∧ c5axisA.motorPos = 0 ∧
    c5axisA.backlashSteps = 50 ∧ c5axisA.estopSteps = 100 ∧
    (c5axisA.moveTo (-100) false).2 = true ∧
    (c5axisA.moveTo (-100) false).1.pendingPos = -150 ∧
    c5axisA.estopSteps <
      |c5axisA.motorPos + (c5axisA.moveTo (-100) false).1.pendingPos -
        c5axisA.pos| := by
  decide

/-- C5 amended: the estop check bounds the tool-frame travel only — an
accepted `moveTo` with `target ≠ pos` satisfies `|target − pos| ≤
estop_steps` (not the motor travel with backlash take-up) — and the soft
stops are enforced by the coordinator, not the axis: whenever both stops
are ordered (`right_stop ≤ left_stop`), any target computed by
`calculateAxisPosition` with stops respected lies in
`[right_stop, left_stop]`. -/
theorem c5_amended (a : AxisState) (t : Int) (cm : Bool) (c : Consts)
    (m : MotionState) (axis : AxisState) (sp : Int) :
    ((a.moveTo t cm).2 = true → t ≠ a.pos → |t - a.pos| ≤ a.estopSteps) ∧
    (axis.rightStop ≤ axis.leftStop →
      ∀ v, m.calculateAxisPosition c axis sp true = some v →
        axis.rightStop ≤ v ∧ v ≤ axis.leftStop) := by
  constructor
  · intro hacc hne
    simp only [AxisState.moveTo, if_neg hne] at hacc
    split at hacc
    · exact absurd hacc (by simp)
    · next hle => exact not_lt.mp hle
  · intro hrl v hv
    simp only [MotionState.calculateAxisPosition] at hv
    split at hv
    · exact absurd hv (by simp)
    · simp only [if_true, Option.some.injEq] at hv
      split at hv <;> [skip; split at hv] <;> omega

/-- C5 amended witness: `moveTo(80)` accepted from `pos = 100` has travel
20 ≤ 10000, and the coordinator target computed for the stop window
`[−5, 5]` is 1, inside the window. -/
theorem c5_amended_witness :
    ((zAxis100.moveTo 80 false).2 = true ∧ (80 : Int) ≠ zAxis100.pos ∧
      |80 - zAxis100.pos| ≤ zAxis100.estopSteps) ∧
    (c5axisB.rightStop ≤ c5axisB.leftStop ∧
      c5motion.calculateAxisPosition sampleConsts c5axisB 2400 true = some 1 ∧
      c5axisB.rightStop ≤ 1 ∧ (1 : Int) ≤ c5axisB.leftStop) := by
  refine ⟨⟨by decide, by decide, ?_⟩, ⟨by decide, by decide, ?_, ?_⟩⟩
  · exact (c5_amended zAxis100 80 false sampleConsts c5motion c5axisB 2400).1
      (by decide) (by decide)
  · exact ((c5_amended zAxis100 80 false sampleConsts c5motion c5axisB 2400).2
      (by decide) 1 (by decide)).1
  · exact ((c5_amended zAxis100 80 false sampleConsts c5motion c5axisB 2400).2
      (by decide) 1 (by decide)).2

/-! Claim C1: the Normal-mode target formula.  The source expression
multiplies and divides by `axis.getPositionSteps()` instead of applying the
axis lead conversion `motor_steps / screw_pitch`, so the commanded target
disagrees with the specified one. -/

/-- C1: at encoder average position 2400 (= PULSES_PER_REV), `pitch = 10`,
`starts = 1`, lead 800 steps / 40 du, the specified target is
`2400·10·1·(800/40)/2400 = 200` steps, but the source's
`calculateAxisPosition` — `spindlePos · pos / pos / ENCODER_STEPS_INT ·
pitch · starts` with no lead conversion — commands 10, and the Normal tick
then issues `moveTo(10, continuous)` (pending becomes `10 − 100 − 50`). -/
theorem c1_code_divergence :
    c1motion.calculateAxisPosition sampleConsts c1zAxis 2400 true = some 10 ∧
    specNormalTargetSteps 2400 10 1 800 40 2400
      c1zAxis.leftStop c1zAxis.rightStop = 200 ∧
    (10 : Int) ≠ 200 ∧
    (c1motion.updateNormalMode sampleConsts false).zAxis.pendingPos = -140 ∧
    (c1motion.updateNormalMode sampleConsts false).zAxis.continuous = true := by
  decide

/-! Claim C3: the division by `getPositionSteps()` in the conversion
helpers is reachable with a zero divisor through the public interface. -/

/-- C3: after the public trace `set_pitch(100); set_enabled(true)` the
system is enabled in Normal mode with nonzero pitch, no sync offset and a
non-moving Z axis — exactly the state in which the Normal tick evaluates
`calculateAxisPosition` — yet `zAxis.pos = 0`, so both conversion helpers
hit their division by zero (embedded as `none`). -/
theorem c3_div_by_zero_reachable :
    c3motion1.systemEnabled = true ∧
    c3motion1.currentMode = Mode.normal ∧
    c3motion1.currentPitch = 100 ∧
    c3motion1.encoder.syncOffset = 0 ∧
    c3motion1.zAxis.isMoving false = false ∧
    c3motion1.zAxis.pos = 0 ∧
    c3motion1.calculateAxisPosition sampleConsts c3motion1.zAxis
      c3motion1.encoder.positionAvg true = none ∧
    c3motion1.calculateSpindlePosition sampleConsts c3motion1.zAxis 500 =
      none := by
  decide

/-! Claim C8: encoder backlash compensation — `position_avg` stays in
`[position, position + ENCODER_BACKLASH]`, every change of it has the sign
of the raw change, and it equals `position` over forward-only motion. -/

/-- One pulse batch preserves the compensation window. -/
theorem encInv_step (B ppr d : Int) (e : EncoderState) (_hB : 0 ≤ B)
    (h : encInv B e) : encInv B (e.processPulses B ppr d) := by
  unfold encInv EncoderState.processPulses at *
  dsimp only
  split_ifs <;> constructor <;> omega

/-- One pulse batch moves `positionAvg` only in the direction of the raw
move, or not at all. -/
theorem encSignRel_step (B ppr d : Int) (e : EncoderState)
    (h : encInv B e) : encSignRel e (e.processPulses B ppr d) := by
  unfold encInv encSignRel EncoderState.processPulses at *
  dsimp only
  split_ifs <;>
    first
      | (left; omega)
      | (right; left; constructor <;> omega)
      | (right; right; constructor <;> omega)

/-- A nonnegative pulse batch keeps `positionAvg` equal to `position`. -/
theorem encFwd_step (B ppr d : Int) (e : EncoderState) (hB : 0 ≤ B)
    (h : e.positionAvg = e.position) (hd : 0 ≤ d) :
    (e.processPulses B ppr d).positionAvg =
      (e.processPulses B ppr d).position := by
  unfold EncoderState.processPulses
  dsimp only
  split_ifs <;> omega

/-- The compensation window is preserved along any pulse sequence. -/
theorem encInv_run (B ppr : Int) (ds : List Int) (e : EncoderState)
    (hB : 0 ≤ B) (h : encInv B e) : encInv B (encRun B ppr e ds) := by
  induction ds generalizing e with
  | nil => exact h
  | cons d ds ih => exact ih _ (encInv_step B ppr d e hB h)

/-- Along a forward-only pulse sequence the compensated position tracks the
raw position exactly. -/
theorem encFwd_run (B ppr : Int) (ds : List Int) (e : EncoderState)
    (hB : 0 ≤ B) (h : e.positionAvg = e.position) (hds : ∀ d ∈ ds, 0 ≤ d) :
    (encRun B ppr e ds).positionAvg = (encRun B ppr e ds).position := by
  induction ds generalizing e with
  | nil => exact h
  | cons d ds ih =>
    exact ih _ (encFwd_step B ppr d e hB h (hds d (List.mem_cons_self d ds)))
      (fun x hx => hds x (List.mem_cons_of_mem d hx))

/-- Unfolding one prefix step of the encoder run. -/
theorem encAt_succ_eq (B ppr : Int) (ds : List Int) (i : Nat)
    (h : i < ds.length) :
    encAt B ppr ds (i + 1) =
      (encAt B ppr ds i).processPulses B ppr ds[i] := by
  unfold encAt encRun
  rw [List.take_succ, List.getElem?_eq_getElem h, Option.toList_some,
    List.foldl_append]
  rfl

/-- C8: for every pulse-delta sequence, at every step the compensated
position changes with the sign of the raw change or not at all, it stays
within `[position, position + ENCODER_BACKLASH]` at every boundary, and it
equals `position` when all deltas are forward. -/
theorem c8_encoder_props (B ppr : Int) (ds : List Int) (hB : 0 ≤ B) :
    (∀ i : Nat, encInv B (encAt B ppr ds i)) ∧
    (∀ i : Nat,
      encSignRel (encAt B ppr ds i) (encAt B ppr ds (i + 1))) ∧
    ((∀ d ∈ ds, 0 ≤ d) →
      (encRun B ppr EncoderState.init ds).positionAvg =
        (encRun B ppr EncoderState.init ds).position) := by
  have hinit : encInv B EncoderState.init := by
    refine ⟨by simp [EncoderState.init], ?_⟩
    simp only [EncoderState.init]
    omega
  refine ⟨fun i => encInv_run B ppr (ds.take i) _ hB hinit, fun i => ?_, ?_⟩
  · by_cases hi : i < ds.length
    · rw [encAt_succ_eq B ppr ds i hi]
      exact encSignRel_step B ppr _ _
        (encInv_run B ppr (ds.take i) _ hB hinit)
    · have hlen : ds.length ≤ i := Nat.le_of_not_lt hi
      have heq : encAt B ppr ds (i + 1) = encAt B ppr ds i := by
        unfold encAt
        rw [List.take_of_length_le hlen,
          List.take_of_length_le (Nat.le_succ_of_le hlen)]
      rw [heq]
      left; rfl
  · intro hds
    exact encFwd_run B ppr ds _ hB (by simp [EncoderState.init]) hds

/-- C8 witness: the spec's scenario 5 — `ENCODER_BACKLASH = 5`, deltas
`+10, −3, +2, −4` — satisfies the window invariant after all four batches
and the sign relation across the first reversal. -/
theorem c8_encoder_props_witness :
    0 ≤ (5 : Int) ∧
    encInv 5 (encAt 5 2400 [10, -3, 2, -4] 4) ∧
    encSignRel (encAt 5 2400 [10, -3, 2, -4] 1)
      (encAt 5 2400 [10, -3, 2, -4] 2) :=
  ⟨by decide, (c8_encoder_props 5 2400 [10, -3, 2, -4] (by decide)).1 4,
    (c8_encoder_props 5 2400 [10, -3, 2, -4] (by decide)).2.1 1⟩

/-! Claim C6: behaviour after disabling.  `setEnabled(false)` does not
clear any axis `pending` — the axes keep stepping in-flight motion to
completion — but no new mode-level targets are issued while disabled. -/

namespace AxisState

/-- A stepping tick never changes the `continuous` flag. -/
theorem update_continuous (a : AxisState) (f : Bool) :
    (a.update f).continuous = a.continuous := by
  simp only [AxisState.update]
  split
  · rfl
  · split <;> rfl

/-- A stepping tick leaves `pendingPos` unchanged or moves it one step
toward zero. -/
theorem update_pending_cases (a : AxisState) (f : Bool) :
    (a.update f).pendingPos = a.pendingPos ∨
    (0 < a.pendingPos ∧ (a.update f).pendingPos = a.pendingPos - 1) ∨
    (a.pendingPos < 0 ∧ (a.update f).pendingPos = a.pendingPos + 1) := by
  simp only [AxisState.update]
  split
  · left; rfl
  · split
    · left; rfl
    · dsimp only
      by_cases hp : a.pendingPos > 0
      · right; left
        refine ⟨hp, ?_⟩
        simp [hp]
      · right; right
        refine ⟨by omega, ?_⟩
        have hd : ¬(decide (a.pendingPos > 0) = true) := by simp [hp]
        rw [if_neg hd]
        omega

end AxisState

namespace MotionState

/-- Coordinator `setEnabled(false)` only clears `systemEnabled` and
`operationIndex` (MotionController.h:140-144). -/
theorem setEnabled_false_eq (m : MotionState) :
    m.setEnabled false =
      { m with systemEnabled := false, operationIndex := 0 } := by
  simp [MotionState.setEnabled]

/-- While disabled, the motion tick bypasses mode dispatch: the Z axis only
executes its own stepping tick. -/
theorem update_zAxis_disabled (c : Consts) (m : MotionState) (inp : TickInput)
    (h : m.systemEnabled = false) :
    (m.update c inp).zAxis = m.zAxis.update inp.zFire := by
  simp [MotionState.update, h]

/-- While disabled, the X axis only executes its own stepping tick. -/
theorem update_xAxis_disabled (c : Consts) (m : MotionState) (inp : TickInput)
    (h : m.systemEnabled = false) :
    (m.update c inp).xAxis = m.xAxis.update inp.xFire := by
  simp [MotionState.update, h]

/-- While disabled, the A1 axis only executes its own stepping tick (when
active). -/
theorem update_a1Axis_disabled (c : Consts) (m : MotionState) (inp : TickInput)
    (h : m.systemEnabled = false) :
    (m.update c inp).a1Axis =
      (if m.a1Axis.active then m.a1Axis.update inp.a1Fire else m.a1Axis) := by
  simp [MotionState.update, h]

/-- The motion tick never re-enables a disabled system. -/
theorem update_systemEnabled_disabled (c : Consts) (m : MotionState)
    (inp : TickInput) (h : m.systemEnabled = false) :
    (m.update c inp).systemEnabled = false := by
  simp [MotionState.update, h]

end MotionState

/-- C6 counterexample: with 5 pending Z steps, `set_enabled(false)`
followed by one motion tick leaves `pending = 4`, not 0 — disabling does
not clear `pending` at the next tick boundary; the axis keeps stepping. -/
theorem c6_counterexample :
    c6motionA.zAxis.pendingPos = 5 ∧
    (afterDisableTick sampleConsts c6motionA c6tick).zAxis.pendingPos = 4 ∧
    (afterDisableTick sampleConsts c6motionA c6tick).zAxis.pendingPos ≠ 0 := by
  decide

/-- C6 amended: after `set_enabled(false)` the system stays disabled and no
new mode-level targets are issued at the next tick boundary: every axis's
`continuous` flag is untouched and its `pending` is unchanged or steps one
pulse toward zero (in-flight motion finishing), never reloaded. -/
theorem c6_amended (c : Consts) (m : MotionState) (inp : TickInput) :
    (afterDisableTick c m inp).systemEnabled = false ∧
    (afterDisableTick c m inp).zAxis.continuous = m.zAxis.continuous ∧
    (afterDisableTick c m inp).xAxis.continuous = m.xAxis.continuous ∧
    (afterDisableTick c m inp).a1Axis.continuous = m.a1Axis.continuous ∧
    ((afterDisableTick c m inp).zAxis.pendingPos = m.zAxis.pendingPos ∨
      (0 < m.zAxis.pendingPos ∧
        (afterDisableTick c m inp).zAxis.pendingPos = m.zAxis.pendingPos - 1) ∨
      (m.zAxis.pendingPos < 0 ∧
        (afterDisableTick c m inp).zAxis.pendingPos = m.zAxis.pendingPos + 1)) ∧
    ((afterDisableTick c m inp).xAxis.pendingPos = m.xAxis.pendingPos ∨
      (0 < m.xAxis.pendingPos ∧
        (afterDisableTick c m inp).xAxis.pendingPos = m.xAxis.pendingPos - 1) ∨
      (m.xAxis.pendingPos < 0 ∧
        (afterDisableTick c m inp).xAxis.pendingPos = m.xAxis.pendingPos + 1)) ∧
    ((afterDisableTick c m inp).a1Axis.pendingPos = m.a1Axis.pendingPos ∨
      (0 < m.a1Axis.pendingPos ∧
        (afterDisableTick c m inp).a1Axis.pendingPos = m.a1Axis.pendingPos - 1) ∨
      (m.a1Axis.pendingPos < 0 ∧
        (afterDisableTick c m inp).a1Axis.pendingPos = m.a1Axis.pendingPos + 1)) := by
  have hsys : (m.setEnabled false).systemEnabled = false := by
    rw [MotionState.setEnabled_false_eq]
  have hz : (m.setEnabled false).zAxis = m.zAxis := by
    rw [MotionState.setEnabled_false_eq]
  have hx : (m.setEnabled false).xAxis = m.xAxis := by
    rw [MotionState.setEnabled_false_eq]
  have ha : (m.setEnabled false).a1Axis = m.a1Axis := by
    rw [MotionState.setEnabled_false_eq]
  unfold afterDisableTick
  rw [MotionState.update_zAxis_disabled c _ inp hsys,
    MotionState.update_xAxis_disabled c _ inp hsys,
    MotionState.update_a1Axis_disabled c _ inp hsys,
    hz, hx, ha]
  refine ⟨MotionState.update_systemEnabled_disabled c _ inp hsys,
    AxisState.update_continuous _ _, AxisState.update_continuous _ _, ?_,
    AxisState.update_pending_cases _ _, AxisState.update_pending_cases _ _, ?_⟩
  · split
    · exact AxisState.update_continuous _ _
    · rfl
  · split
    · exact AxisState.update_pending_cases _ _
    · left; rfl

/-! Claim C9: pitch and starts changes perform the synchronization origin
reset — every active axis absorbs its position into the origin offset and
zeroes `pos` and `pending` with stops shifted, and the encoder is fully
reset. -/

/-- Coordinator `setNewOrigin` establishes the synchronization-reset postcondition. -/
theorem setNewOrigin_post (m : MotionState) : syncResetPost m m.setNewOrigin := by
  unfold syncResetPost MotionState.setNewOrigin AxisState.setOrigin
    EncoderState.resetPosition
  dsimp only
  refine ⟨rfl, rfl, rfl, ?_, ?_, rfl, rfl, rfl, ?_, rfl, rfl, rfl⟩
  · intro h; rw [if_pos h]
  · intro h; rw [if_pos h]
  · intro h; rw [if_pos h]; exact ⟨rfl, rfl, rfl⟩

/-- C9: for every in-range pitch `p` and starts `n`, `set_pitch(p)` and
`set_starts(n)` apply the change and perform the synchronization reset:
origin offsets absorb the current positions, `pos` and `pending` become 0
with stops shifted, and the encoder is zeroed, so no queued motion
remains. -/
theorem c9_sync_reset (c : Consts) (m : MotionState) (p n : Int)
    (hp : -c.DUPR_MAX ≤ p ∧ p ≤ c.DUPR_MAX)
    (hn : 1 ≤ n ∧ n ≤ c.STARTS_MAX) :
    ((m.setPitch c p).currentPitch = p ∧ syncResetPost m (m.setPitch c p)) ∧
    ((m.setStarts c n).currentStarts = n ∧
      syncResetPost m (m.setStarts c n)) := by
  have hgp : ¬(p < -c.DUPR_MAX ∨ p > c.DUPR_MAX) := by
    push_neg; exact ⟨by omega, by omega⟩
  have hgn : ¬(n < 1 ∨ n > c.STARTS_MAX) := by
    push_neg; exact ⟨by omega, by omega⟩
  unfold MotionState.setPitch MotionState.setStarts
  rw [if_neg hgp, if_neg hgn]
  exact ⟨⟨rfl, setNewOrigin_post { m with currentPitch := p }⟩,
    ⟨rfl, setNewOrigin_post { m with currentStarts := n }⟩⟩

/-- C9 witness: the spec's scenario 3 — coordinator with the Z axis at
`pos = 100` and the encoder at 2400, `set_pitch(1000)` — the pitch is
applied and the synchronization frame is reset. -/
theorem c9_sync_reset_witness :
    (-sampleConsts.DUPR_MAX ≤ (1000 : Int) ∧
      (1000 : Int) ≤ sampleConsts.DUPR_MAX) ∧
    (1 ≤ (2 : Int) ∧ (2 : Int) ≤ sampleConsts.STARTS_MAX) ∧
    (c1motion.setPitch sampleConsts 1000).currentPitch = 1000 ∧
    syncResetPost c1motion (c1motion.setPitch sampleConsts 1000) :=
  ⟨⟨by decide, by decide⟩, ⟨by decide, by decide⟩,
    (c9_sync_reset sampleConsts c1motion 1000 2 ⟨by decide, by decide⟩
      ⟨by decide, by decide⟩).1.1,
    (c9_sync_reset sampleConsts c1motion 1000 2 ⟨by decide, by decide⟩
      ⟨by decide, by decide⟩).1.2⟩

/-! Claim C10: the coordinator's enable/disable asymmetry — enabling takes
an axis enable reference, disabling never releases one, so the reference
count grows without bound and a `needs_rest` driver stays energized after
the system is disabled. -/

/-- One cycle from a disabled state increments the Z enable counter by one
(the disable half never decrements it) and preserves the configuration
flags. -/
theorem enCycle_props (m : MotionState) (hs : m.systemEnabled = false)
    (hr : m.zAxis.needsRest = true) (ha : m.zAxis.active = true)
    (hd : m.zAxis.disabled = false) :
    (enCycle m).zAxis.stepperEnableCounter =
      m.zAxis.stepperEnableCounter + 1 ∧
    (enCycle m).systemEnabled = false ∧
    (enCycle m).zAxis.needsRest = true ∧
    (enCycle m).zAxis.active = true ∧
    (enCycle m).zAxis.disabled = false := by
  unfold enCycle
  rw [MotionState.setEnabled_false_eq]
  dsimp only
  unfold MotionState.setEnabled MotionState.setNewOrigin
  simp [hs, AxisState.setEnabled, AxisState.setOrigin, hr, ha, hd]

/-- C10: after `n` alternating enable/disable cycles from a disabled state,
a `needs_rest` active axis's `stepperEnableCounter` equals its initial
value plus `n` — coordinator disable never calls the axis-level disable —
the system ends disabled, and for `n ≥ 1` the driver enable line is still
asserted. -/
theorem c10_enable_counter (m : MotionState) (n : Nat)
    (hs : m.systemEnabled = false) (hr : m.zAxis.needsRest = true)
    (ha : m.zAxis.active = true) (hd : m.zAxis.disabled = false)
    (hc : 0 ≤ m.zAxis.stepperEnableCounter) :
    (enCycle^[n] m).zAxis.stepperEnableCounter =
      m.zAxis.stepperEnableCounter + n ∧
    (enCycle^[n] m).systemEnabled =
      (if n = 0 then m.systemEnabled else false) ∧
    (1 ≤ n → (enCycle^[n] m).zAxis.enablePinHigh = true) := by
  have key : ∀ k : Nat,
      (enCycle^[k] m).zAxis.stepperEnableCounter =
        m.zAxis.stepperEnableCounter + k ∧
      (enCycle^[k] m).systemEnabled = false ∧
      (enCycle^[k] m).zAxis.needsRest = true ∧
      (enCycle^[k] m).zAxis.active = true ∧
      (enCycle^[k] m).zAxis.disabled = false := by
    intro k
    induction k with
    | zero => exact ⟨by simp, hs, hr, ha, hd⟩
    | succ j ih =>
      rw [Function.iterate_succ_apply']
      obtain ⟨hcnt, hs2, hr2, ha2, hd2⟩ := ih
      obtain ⟨pc, ps, pr, pa, pd⟩ := enCycle_props _ hs2 hr2 ha2 hd2
      refine ⟨?_, ps, pr, pa, pd⟩
      rw [pc, hcnt]
      push_cast
      ring
  obtain ⟨hcnt, hs2, hr2, ha2, hd2⟩ := key n
  refine ⟨hcnt, ?_, ?_⟩
  · cases n with
    | zero => simp
    | succ j => simpa using hs2
  · intro hn
    unfold AxisState.enablePinHigh
    rw [hd2, hr2]
    simp only [Bool.not_false, Bool.not_true, Bool.false_or, Bool.true_and]
    rw [decide_eq_true_eq]
    omega

/-- C10 witness: three enable/disable cycles on a fresh coordinator leave
the Z enable counter at 3, the system disabled, and the driver enable line
asserted. -/
theorem c10_enable_counter_witness :
    c3motion0.systemEnabled = false ∧ c3motion0.zAxis.needsRest = true ∧
    c3motion0.zAxis.active = true ∧ c3motion0.zAxis.disabled = false ∧
    0 ≤ c3motion0.zAxis.stepperEnableCounter ∧
    (enCycle^[3] c3motion0).zAxis.stepperEnableCounter = 3 ∧
    (enCycle^[3] c3motion0).zAxis.enablePinHigh = true := by
  refine ⟨by decide, by decide, by decide, by decide, by decide, ?_, ?_⟩
  · have h := (c10_enable_counter c3motion0 3 (by decide) (by decide)
      (by decide) (by decide) (by decide)).1
    rw [h]; decide
  · exact (c10_enable_counter c3motion0 3 (by decide) (by decide)
      (by decide) (by decide) (by decide)).2.2 (by omega)
